import Mathlib

/-!
# Verification of the knx-go cEMI/transport codec and management layer

This file gives a shallow embedding, in Lean 4, of the core of the
`LB-00/knx-go` repository: the transport/application PDU codec
(`AppData`, `ControlData`, `unpackTransportUnit` from `knx/cemi`), the
DIB and SRP codecs (`knx/knxnet`), and the point-to-point management
registry (`knx/management.go`).  Go byte slices are modelled as
`List Nat` with values below 256; machine integers are `Nat` with
explicit masking (`&&& 255`, `% 256`, ...) where the Go code casts.
Fallible code returns `Except`.  Each theorem below settles one claim
about the code.
-/

/-- Error kinds produced by the embedded unpack functions.  `shortInput`
corresponds to `io.ErrUnexpectedEOF` (truncated input), `invalidLength`
to the various "invalid length" errors, `invalidSlot` to the tunnelling
slot address validation error, `sliceBounds` to a Go slice-bounds
runtime panic. -/
inductive PErr where
  | shortInput
  | invalidLength
  | invalidSlot
  | badElement
  | sliceBounds
deriving DecidableEq, Repr

/-- Copy a list into a zero-initialised buffer of `n` bytes: this models
Go's `copy(buffer, l)` where `buffer := make([]byte, n)` — the copy
truncates to `n` bytes and the remainder of the buffer stays zero. -/
def padTo (l : List Nat) (n : Nat) : List Nat :=
  l.take n ++ List.replicate (n - l.length) 0

/-! ## Transport/Application PDU codec (`knx/cemi`, `src/unnamed/part_000`) -/

/-- APCI is the 10-bit application-layer protocol control information. -/
abbrev APCI := Nat

/-- Source constant `UserMemoryRead APCI = 0b1011000000`. -/
def UserMemoryRead : APCI := 0b1011000000

/-- Source constant `MemoryExtendedRead APCI = 0b0111111101`. -/
def MemoryExtendedRead : APCI := 0b0111111101

/-- Source constant `GroupValueWrite APCI = 0b0010000000`. -/
def GroupValueWrite : APCI := 0b0010000000

/-- Source constant `PrefixUserMessage uint8 = 0b1011`. -/
def PrefixUserMessage : Nat := 0b1011

/-- Source constant `PrefixEscape uint8 = 0b1111`. -/
def PrefixEscape : Nat := 0b1111

/-- Source `APCI.IsGroupCommand`: `(apci >> 6) < 3`. -/
def APCI.IsGroupCommand (apci : APCI) : Bool :=
  (apci >>> 6) < 3

/-- Source `APCI.IsStandardCommand`:
`apci != UserMemoryRead && (apci&0x3F) == 0 && (apci>>6) < 15`. -/
def APCI.IsStandardCommand (apci : APCI) : Bool :=
  apci ≠ UserMemoryRead && (apci &&& 0x3F) == 0 && (apci >>> 6) < 15

/-- Source struct `AppData`: application data in a transport unit.
`Data` is a Go byte slice, modelled as a list of bytes. -/
structure AppData where
  Numbered  : Bool
  SeqNumber : Nat
  Command   : APCI
  Data      : List Nat
deriving DecidableEq, Repr

/-- Source `AppData.Size`. -/
def AppData.Size (app : AppData) : Nat :=
  let cmdLength := if app.Command.IsStandardCommand then 2 else 3
  let dataLength :=
    if app.Data.length > 255 then 255
    else if app.Data.length < 1 then 1
    else app.Data.length
  cmdLength + dataLength

/-- Source `AppData.Pack`: packs into a zero-initialised transport data
unit of `Size` bytes, including the leading length byte.  The `|=`
writes of the Go code land on zero bytes, so the produced buffer is
assembled directly. -/
def AppData.Pack (app : AppData) : List Nat :=
  let dataLength0 :=
    if app.Data.length > 255 then 255
    else if app.Data.length < 1 then 1
    else app.Data.length
  let dataLength :=
    if app.Command.IsStandardCommand then dataLength0 else dataLength0 + 1
  let b1 :=
    (if app.Numbered then (1 <<< 6) ||| ((app.SeqNumber &&& 15) <<< 2) else 0)
      ||| ((app.Command >>> 8) &&& 3)
  -- buffer[0] = byte(dataLength): the byte() cast wraps modulo 256
  if app.Command.IsStandardCommand then
    -- copy(buffer[2:], app.Data); buffer[2] &= 63; buffer[2] |= (cmd>>6&3)<<6
    (dataLength % 256) :: b1 ::
      ((((padTo app.Data dataLength0).headD 0 &&& 63) ||| (((app.Command >>> 6) &&& 3) <<< 6))
        :: (padTo app.Data dataLength0).tail)
  else
    -- buffer[2] = byte(cmd & 0xFF); copy(buffer[3:], app.Data)
    (dataLength % 256) :: b1 :: (app.Command &&& 0xFF) :: padTo app.Data dataLength0

/-- Source struct `ControlData`: control information in a transport unit. -/
structure ControlData where
  Numbered  : Bool
  SeqNumber : Nat
  Command   : Nat
deriving DecidableEq, Repr

/-- Source `ControlData.Size` is the constant 2. -/
def ControlData.Size (_ : ControlData) : Nat := 2

/-- Source `ControlData.Pack`:
`buffer[0] = 0; buffer[1] = 1<<7 | (cmd & 3)`, plus the numbered bits. -/
def ControlData.Pack (control : ControlData) : List Nat :=
  [0, ((1 <<< 7) ||| (control.Command &&& 3)) |||
    (if control.Numbered then (1 <<< 6) ||| ((control.SeqNumber &&& 15) <<< 2) else 0)]

/-- Source `TConnect` (`src/knx/cemi/management.go`): returns a
`ControlConn` wrapping `ControlData{Numbered: false, SeqNumber: 0,
Command: Connect}`; the wrapper type adds no state beyond the embedded
`ControlData`, which is what the model records. -/
def TConnect : ControlData := ⟨false, 0, 0⟩

/-- Source `TDisconnect` (`src/knx/cemi/management.go`): returns a
`ControlDisc` wrapping `ControlData{Numbered: false, SeqNumber: 0,
Command: Disconnect}`, recorded as the embedded `ControlData`. -/
def TDisconnect : ControlData := ⟨false, 0, 1⟩

/-- Source `TAck` (`src/knx/cemi/management.go`): returns a `ControlAck`
wrapping `ControlData{Numbered: true, SeqNumber: seqNumber, Command:
Ack}`, recorded as the embedded `ControlData`. -/
def TAck (seqNumber : Nat) : ControlData := ⟨true, seqNumber, 2⟩

/-- Source `TNak` (`src/knx/cemi/management.go`): returns a `ControlNak`
wrapping `ControlData{Numbered: true, SeqNumber: seqNumber, Command:
Nak}`, recorded as the embedded `ControlData`. -/
def TNak (seqNumber : Nat) : ControlData := ⟨true, seqNumber, 3⟩

/-- A transport unit is either application data or control data. -/
inductive TransportUnit where
  | app (a : AppData)
  | control (c : ControlData)
deriving DecidableEq, Repr

/-- Source `unpackTransportUnit`: parses the given data in order to
extract the transport unit that it encodes, returning the unit and the
number of bytes consumed. -/
def unpackTransportUnit (data : List Nat) : Except PErr (TransportUnit × Nat) :=
  if data.length < 2 then .error .shortInput
  else
    let b1 := data.getD 1 0
    if b1 &&& (1 <<< 7) = 1 <<< 7 then
      let numbered : Bool := b1 &&& (1 <<< 6) == 1 <<< 6
      let seqNumber := (b1 >>> 2) &&& 15
      let command := b1 &&& 3
      let unit : ControlData :=
        if command = 0 then TConnect
        else if command = 1 then TDisconnect
        else if command = 2 then TAck seqNumber
        else if command = 3 then TNak seqNumber
        else ⟨numbered, seqNumber, command⟩
      .ok (.control unit, 2)
    else
      let dataLength := data.getD 0 0
      if data.length < 3 ∨ dataLength + 2 < data.length then .error .shortInput
      else
        let numbered : Bool := b1 &&& (1 <<< 6) == 1 <<< 6
        let seqNumber := (b1 >>> 2) &&& 15
        let b2 := data.getD 2 0
        let p := ((b1 &&& 3) <<< 2) ||| (b2 >>> 6)
        if p = PrefixUserMessage ∨ p = PrefixEscape then
          -- app.Data = make([]byte, dataLength-1); copy(app.Data, data[3:])
          let command := (p <<< 6) ||| b2
          let d := padTo (data.drop 3) (dataLength - 1)
          .ok (.app ⟨numbered, seqNumber, command, d⟩, dataLength + 2)
        else
          -- app.Data = make([]byte, dataLength); copy(app.Data, data[2:]);
          -- app.Data[0] &= 63 (the guard above forces dataLength ≥ 1 here)
          let command := p <<< 6
          let d :=
            match padTo (data.drop 2) dataLength with
            | [] => []
            | h :: t => (h &&& 63) :: t
          .ok (.app ⟨numbered, seqNumber, command, d⟩, dataLength + 2)


/-! ## P2P management layer (`knx/management.go`)

The registry is modelled as a function from device addresses to optional
session states; a session state records the two fields the registry
logic reads and writes: the `connected` flag and whether the `done`
channel has been closed.  External effects (tunnel sends, session
creation) are abstracted as explicit outcome parameters. -/

/-- Session state of a `P2PConnection` as seen by the registry logic:
the `connected` flag and whether `done` has been closed. -/
structure ConnSt where
  connected  : Bool
  doneClosed : Bool
deriving DecidableEq, Repr

/-- Registry of `Management`: a map from device addresses (`uint16`
individual addresses, modelled as `Nat`) to session states. -/
abbrev Registry := Nat → Option ConnSt

/-- Source `NewP2PConnection` initialises `seqNumber: 15` ("Start with
the maximum so the first increment will be 0"). -/
def newP2PSeqNumber : Nat := 15

/-- Source `P2PConnection.nextSeqNum`: `seqNumber = (seqNumber + 1) % 16`,
returning the updated number together with the new state. -/
def nextSeqNum (seqNumber : Nat) : Nat × Nat :=
  let s := (seqNumber + 1) % 16
  (s, s)

/-- The sequence numbers produced by `k` successive `nextSeqNum`
allocations starting from the given state. -/
def seqNumsFrom (seqNumber : Nat) : Nat → List Nat
  | 0 => []
  | k + 1 =>
    let (s, st) := nextSeqNum seqNumber
    s :: seqNumsFrom st k

/-- Error results of the management registry operations: the
"connection not found" error and a propagated tunnel send error. -/
inductive DiscErr where
  | notFound
  | sendFailed
deriving DecidableEq, Repr

/-- Source `P2PConnection.Disconnect`: if not connected, return `nil`
without touching the state; otherwise send the `T_DISCONNECT` request
(outcome given by `sendFails`), mark the connection as disconnected
regardless of the send success, close `done` idempotently, and return
the send error. -/
def P2PConnection.Disconnect (conn : ConnSt) (sendFails : Bool) : ConnSt × Option DiscErr :=
  if !conn.connected then (conn, none)
  else (⟨false, true⟩, if sendFails then some .sendFailed else none)

/-- Source `Management.Connect`: return an existing connected entry;
evict a stale (disconnected) entry; otherwise create a new session
(outcome given by `newConn`) and store it on success.  The result pairs
the returned value with the final registry. -/
def Management.Connect (connections : Registry) (addr : Nat)
    (newConn : Except Unit ConnSt) : Except Unit ConnSt × Registry :=
  match connections addr with
  | some conn =>
      if !conn.connected then
        -- delete(m.connections, addr), then fall through to creation
        let connections' : Registry := fun a => if a = addr then none else connections a
        match newConn with
        | .error e => (.error e, connections')
        | .ok c => (.ok c, fun a => if a = addr then some c else connections' a)
      else (.ok conn, connections)
  | none =>
      match newConn with
      | .error e => (.error e, connections)
      | .ok c => (.ok c, fun a => if a = addr then some c else connections a)

/-- Source `Management.Disconnect`: look up the entry (error `notFound`
if absent), call the session's `Disconnect`, and delete the entry only
when that returned no error; the map retains the (mutated) session when
an error is returned. -/
def Management.Disconnect (connections : Registry) (addr : Nat)
    (sendFails : Bool) : Registry × Option DiscErr :=
  match connections addr with
  | none => (connections, some .notFound)
  | some conn =>
      let res := P2PConnection.Disconnect conn sendFails
      match res.2 with
      | some e => (fun a => if a = addr then some res.1 else connections a, some e)
      | none => (fun a => if a = addr then none else connections a, none)


/-! ## SRP codec (`knx/knxnet/search.go`) -/

/-- Source `ParameterType` constants 0x00–0x04. -/
def ParameterTypeSelectProgMode : Nat := 0x01

/-- Source constant `ParameterTypeSelectMACAddr = 0x02`. -/
def ParameterTypeSelectMACAddr : Nat := 0x02

/-- Source constant `ParameterTypeSelectSrvSRP = 0x03`. -/
def ParameterTypeSelectSrvSRP : Nat := 0x03

/-- Source constant `ParameterTypeRequestDIBs = 0x04`. -/
def ParameterTypeRequestDIBs : Nat := 0x04

/-- Source struct `SelectProgMode` (the Select By Programming Mode SRP);
the source field `Type` is rendered `Ty` because `Type` is reserved in
Lean. -/
structure SelectProgMode where
  Mandatory : Bool
  Ty        : Nat
deriving DecidableEq, Repr

/-- Source `SelectProgMode.Size`: returns 1. -/
def SelectProgMode.Size : Nat := 1

/-- Source `SelectProgMode.Pack`: a single payload byte
`(mandatory ? 0x80 : 0) | byte(Type)` — no length byte is emitted. -/
def SelectProgMode.Pack (srp : SelectProgMode) : List Nat :=
  [(if srp.Mandatory then 0x80 else 0) ||| (srp.Ty % 256)]

/-- Source `SelectProgMode.Unpack`: reads a length byte and the payload
byte, requires `length == 1`, and returns 1. -/
def SelectProgMode.Unpack (data : List Nat) : Except PErr (SelectProgMode × Nat) :=
  if data.length < 2 then .error .shortInput
  else
    let length := data.getD 0 0
    let pld := data.getD 1 0
    if length ≠ SelectProgMode.Size then .error .invalidLength
    else .ok (⟨pld &&& 0x80 != 0, pld &&& 0x7F⟩, 1)

/-- Source struct `SelectMACAddr`; `HardwareAddr [6]byte` is a fixed
array, modelled as a 6-tuple of bytes. -/
structure SelectMACAddr where
  Mandatory    : Bool
  Ty           : Nat
  HardwareAddr : Nat × Nat × Nat × Nat × Nat × Nat
deriving DecidableEq, Repr

/-- Source `SelectMACAddr.Size`: returns 7. -/
def SelectMACAddr.Size : Nat := 7

/-- Source `SelectMACAddr.Pack`: the payload byte followed by the 6 MAC
bytes — no length byte is emitted. -/
def SelectMACAddr.Pack (srp : SelectMACAddr) : List Nat :=
  ((if srp.Mandatory then 0x80 else 0) ||| (srp.Ty % 256)) ::
    [srp.HardwareAddr.1, srp.HardwareAddr.2.1, srp.HardwareAddr.2.2.1,
      srp.HardwareAddr.2.2.2.1, srp.HardwareAddr.2.2.2.2.1, srp.HardwareAddr.2.2.2.2.2]

/-- Source `SelectMACAddr.Unpack`: reads a length byte, the payload byte
and 6 MAC bytes, requires `length == 7`, and returns 7. -/
def SelectMACAddr.Unpack (data : List Nat) : Except PErr (SelectMACAddr × Nat) :=
  if data.length < 8 then .error .shortInput
  else
    let length := data.getD 0 0
    let pld := data.getD 1 0
    if length ≠ SelectMACAddr.Size then .error .invalidLength
    else
      .ok (⟨pld &&& 0x80 != 0, pld &&& 0x7F,
        (data.getD 2 0, data.getD 3 0, data.getD 4 0,
          data.getD 5 0, data.getD 6 0, data.getD 7 0)⟩, 7)

/-- Source struct `SelectSrvSRP` (the Select By Service SRP). -/
structure SelectSrvSRP where
  Mandatory : Bool
  Ty        : Nat
  Service   : Nat
  Version   : Nat
deriving DecidableEq, Repr

/-- Source `SelectSrvSRP.Size`: returns 3. -/
def SelectSrvSRP.Size : Nat := 3

/-- Source `SelectSrvSRP.Pack`: the payload byte, service family and
version — no length byte is emitted. -/
def SelectSrvSRP.Pack (srp : SelectSrvSRP) : List Nat :=
  [(if srp.Mandatory then 0x80 else 0) ||| (srp.Ty % 256),
    srp.Service % 256, srp.Version % 256]

/-- Source `SelectSrvSRP.Unpack`: reads a length byte, the payload byte,
service and version, requires `length == 3`, and returns 3. -/
def SelectSrvSRP.Unpack (data : List Nat) : Except PErr (SelectSrvSRP × Nat) :=
  if data.length < 4 then .error .shortInput
  else
    let length := data.getD 0 0
    let pld := data.getD 1 0
    if length ≠ SelectSrvSRP.Size then .error .invalidLength
    else .ok (⟨pld &&& 0x80 != 0, pld &&& 0x7F, data.getD 2 0, data.getD 3 0⟩, 3)

/-- Source struct `RequestDIBs` (the Request DIBs SRP). -/
structure RequestDIBs where
  Mandatory : Bool
  Ty        : Nat
  DescTypes : List Nat
deriving DecidableEq, Repr

/-- Source `RequestDIBs.Size`: 2 plus the number of description types,
rounded up to an even count for the 0x00 padding type. -/
def RequestDIBs.Size (srp : RequestDIBs) : Nat :=
  if srp.DescTypes.length % 2 ≠ 0 then 2 + (srp.DescTypes.length + 1)
  else 2 + srp.DescTypes.length

/-- Source `RequestDIBs.Pack`: length byte, payload byte, then the
description type list padded with 0x00 to an even count. -/
def RequestDIBs.Pack (srp : RequestDIBs) : List Nat :=
  let descTypes := srp.DescTypes.map (· % 256)
  let descTypes := if descTypes.length % 2 ≠ 0 then descTypes ++ [0x00] else descTypes
  ((2 + descTypes.length) % 256) ::
    ((if srp.Mandatory then 0x80 else 0) ||| (srp.Ty % 256)) :: descTypes

/-- Source `RequestDIBs.Unpack`: reads length and payload bytes, takes
`data[2:length]` as the description types (a Go slice expression that
panics when `length` is out of range), and requires `length` to equal
the recomputed `Size` of the result. -/
def RequestDIBs.Unpack (data : List Nat) : Except PErr (RequestDIBs × Nat) :=
  if data.length < 2 then .error .shortInput
  else
    let length := data.getD 0 0
    let pld := data.getD 1 0
    -- data[n:length] with n = 2: Go panics unless 2 ≤ length ≤ len(data)
    if length < 2 ∨ data.length < length then .error .sliceBounds
    else
      let descTypes := (data.take length).drop 2
      let srp : RequestDIBs := ⟨pld &&& 0x80 != 0, pld &&& 0x7F, descTypes⟩
      if length ≠ srp.Size % 256 then .error .invalidLength
      else .ok (srp, length)

/-! ## DIB codec (`knx/knxnet`, `src/unnamed/part_002`)

Fixed-size Go byte arrays (`[4]byte`, `[6]byte`) are modelled as
tuples; the source `Type` fields are rendered `Ty` because `Type` is
reserved in Lean. -/

/-- Source `DescriptionType` constant `DescriptionTypeDeviceInfo = 0x01`. -/
def DescriptionTypeDeviceInfo : Nat := 0x01

/-- Source constant `DescriptionTypeSupportedServiceFamilies = 0x02`. -/
def DescriptionTypeSupportedServiceFamilies : Nat := 0x02

/-- Source constant `DescriptionTypeIPConfig = 0x03`. -/
def DescriptionTypeIPConfig : Nat := 0x03

/-- Source constant `DescriptionTypeIPCurrentConfig = 0x04`. -/
def DescriptionTypeIPCurrentConfig : Nat := 0x04

/-- Source constant `DescriptionTypeKNXAddresses = 0x05`. -/
def DescriptionTypeKNXAddresses : Nat := 0x05

/-- Source constant `DescriptionTypeSecuredServiceFamilies = 0x06`. -/
def DescriptionTypeSecuredServiceFamilies : Nat := 0x06

/-- Source constant `DescriptionTypeTunnellingInfo = 0x07`. -/
def DescriptionTypeTunnellingInfo : Nat := 0x07

/-- Source constant `DescriptionTypeExtendedDeviceInfo = 0x08`. -/
def DescriptionTypeExtendedDeviceInfo : Nat := 0x08

/-- Source constant `DescriptionTypeManufacturerData = 0xfe`. -/
def DescriptionTypeManufacturerData : Nat := 0xfe

/-- Source struct `ServiceFamily` (a supported KNXnet service). -/
structure ServiceFamily where
  Ty      : Nat
  Version : Nat
deriving DecidableEq, Repr

/-- Source struct `DeviceInformationBlock`. -/
structure DeviceInformationBlock where
  Ty                      : Nat
  Medium                  : Nat
  Status                  : Nat
  Source                  : Nat
  ProjectIdentifier       : Nat
  SerialNumber            : Nat × Nat × Nat × Nat × Nat × Nat
  RoutingMulticastAddress : Nat × Nat × Nat × Nat
  HardwareAddr            : Nat × Nat × Nat × Nat × Nat × Nat
  FriendlyName            : List Nat
deriving DecidableEq, Repr

/-- Source `DeviceInformationBlock.Unpack`: 24 bytes of fixed fields,
then the 30-byte friendly name, then the `length == 54` check.
`util.UnpackString` is not under `src/` and is modelled from the spec:
the friendly name is "padded to 30 bytes", so 30 bytes are consumed and
the name is the prefix before the first NUL byte. -/
def DeviceInformationBlock.Unpack (data : List Nat) :
    Except PErr (DeviceInformationBlock × Nat) :=
  if data.length < 24 then .error .shortInput
  else if (data.drop 24).length < 30 then .error .shortInput
  else
    let length := data.getD 0 0
    let dib : DeviceInformationBlock :=
      ⟨data.getD 1 0, data.getD 2 0, data.getD 3 0,
        data.getD 4 0 * 256 + data.getD 5 0,
        data.getD 6 0 * 256 + data.getD 7 0,
        (data.getD 8 0, data.getD 9 0, data.getD 10 0,
          data.getD 11 0, data.getD 12 0, data.getD 13 0),
        (data.getD 14 0, data.getD 15 0, data.getD 16 0, data.getD 17 0),
        (data.getD 18 0, data.getD 19 0, data.getD 20 0,
          data.getD 21 0, data.getD 22 0, data.getD 23 0),
        ((data.drop 24).take 30).takeWhile (fun b => b ≠ 0)⟩
    if length ≠ 54 then .error .invalidLength
    else .ok (dib, 54)

/-- Loop of `SupportedServicesDIB.Unpack` and `SecuredServicesDIB.Unpack`:
while `n < length`, unpack a 2-byte `ServiceFamily` from `data[n:]` and
advance by 2. -/
def serviceFamiliesLoop (data : List Nat) (length : Nat) (n : Nat)
    (acc : List ServiceFamily) : Except PErr (List ServiceFamily × Nat) :=
  if n < length then
    if (data.drop n).length < 2 then .error .badElement
    else
      serviceFamiliesLoop data length (n + 2)
        (acc ++ [⟨data.getD n 0, data.getD (n + 1) 0⟩])
  else .ok (acc, n)
termination_by length - n
decreasing_by omega

/-- Source struct `SupportedServicesDIB`. -/
structure SupportedServicesDIB where
  Ty       : Nat
  Families : List ServiceFamily
deriving DecidableEq, Repr

/-- Source `SupportedServicesDIB.Unpack`: header, family loop, then the
`length == uint8(Size())` check with `Size = 2 + 2·n`. -/
def SupportedServicesDIB.Unpack (data : List Nat) :
    Except PErr (SupportedServicesDIB × Nat) :=
  if data.length < 2 then .error .shortInput
  else
    let length := data.getD 0 0
    let ty := data.getD 1 0
    match serviceFamiliesLoop data length 2 [] with
    | .error e => .error e
    | .ok (families, n) =>
        if length ≠ (2 + 2 * families.length) % 256 then .error .invalidLength
        else .ok (⟨ty, families⟩, n)

/-- Source struct `IPConfigDIB`. -/
structure IPConfigDIB where
  Ty             : Nat
  IP             : Nat × Nat × Nat × Nat
  Mask           : Nat × Nat × Nat × Nat
  Gateway        : Nat × Nat × Nat × Nat
  IPCapabilities : Nat
  IPAssignment   : Nat
deriving DecidableEq, Repr

/-- Source `IPConfigDIB.Size`: returns 16. -/
def IPConfigDIB.Size : Nat := 16

/-- Source `IPConfigDIB.Pack`: `[16, type, ip, mask, gateway,
capabilities, assignment]`. -/
def IPConfigDIB.Pack (idib : IPConfigDIB) : List Nat :=
  IPConfigDIB.Size :: (idib.Ty % 256) ::
    idib.IP.1 :: idib.IP.2.1 :: idib.IP.2.2.1 :: idib.IP.2.2.2 ::
    idib.Mask.1 :: idib.Mask.2.1 :: idib.Mask.2.2.1 :: idib.Mask.2.2.2 ::
    idib.Gateway.1 :: idib.Gateway.2.1 :: idib.Gateway.2.2.1 :: idib.Gateway.2.2.2 ::
    [idib.IPCapabilities, idib.IPAssignment]

/-- Source `IPConfigDIB.Unpack`: 16 fixed bytes and the `length == 16`
check. -/
def IPConfigDIB.Unpack (data : List Nat) : Except PErr (IPConfigDIB × Nat) :=
  if data.length < 16 then .error .shortInput
  else
    let length := data.getD 0 0
    let idib : IPConfigDIB :=
      ⟨data.getD 1 0,
        (data.getD 2 0, data.getD 3 0, data.getD 4 0, data.getD 5 0),
        (data.getD 6 0, data.getD 7 0, data.getD 8 0, data.getD 9 0),
        (data.getD 10 0, data.getD 11 0, data.getD 12 0, data.getD 13 0),
        data.getD 14 0, data.getD 15 0⟩
    if length ≠ IPConfigDIB.Size then .error .invalidLength
    else .ok (idib, 16)

/-- Source struct `IPCurrentConfigDIB`. -/
structure IPCurrentConfigDIB where
  Ty           : Nat
  IP           : Nat × Nat × Nat × Nat
  Mask         : Nat × Nat × Nat × Nat
  Gateway      : Nat × Nat × Nat × Nat
  DHCPServer   : Nat × Nat × Nat × Nat
  IPAssignment : Nat
  Reserved     : Nat
deriving DecidableEq, Repr

/-- Source `IPCurrentConfigDIB.Unpack`: 20 fixed bytes and the
`length == 20` check. -/
def IPCurrentConfigDIB.Unpack (data : List Nat) :
    Except PErr (IPCurrentConfigDIB × Nat) :=
  if data.length < 20 then .error .shortInput
  else
    let length := data.getD 0 0
    let idib : IPCurrentConfigDIB :=
      ⟨data.getD 1 0,
        (data.getD 2 0, data.getD 3 0, data.getD 4 0, data.getD 5 0),
        (data.getD 6 0, data.getD 7 0, data.getD 8 0, data.getD 9 0),
        (data.getD 10 0, data.getD 11 0, data.getD 12 0, data.getD 13 0),
        (data.getD 14 0, data.getD 15 0, data.getD 16 0, data.getD 17 0),
        data.getD 18 0, data.getD 19 0⟩
    if length ≠ 20 then .error .invalidLength
    else .ok (idib, 20)

/-- Loop of `KNXAddrsDIB.Unpack`: while `n < length`, unpack a 2-byte
individual address and advance by 2. -/
def knxAddrsLoop (data : List Nat) (length : Nat) (n : Nat)
    (acc : List Nat) : Except PErr (List Nat × Nat) :=
  if n < length then
    if (data.drop n).length < 2 then .error .badElement
    else
      knxAddrsLoop data length (n + 2)
        (acc ++ [data.getD n 0 * 256 + data.getD (n + 1) 0])
  else .ok (acc, n)
termination_by length - n
decreasing_by omega

/-- Source struct `KNXAddrsDIB`. -/
structure KNXAddrsDIB where
  Ty       : Nat
  KNXAddrs : List Nat
deriving DecidableEq, Repr

/-- Source `KNXAddrsDIB.Unpack`: header, address loop, then the
`length == uint8(Size())` check with `Size = 2 + 2·n`. -/
def KNXAddrsDIB.Unpack (data : List Nat) : Except PErr (KNXAddrsDIB × Nat) :=
  if data.length < 2 then .error .shortInput
  else
    let length := data.getD 0 0
    let ty := data.getD 1 0
    match knxAddrsLoop data length 2 [] with
    | .error e => .error e
    | .ok (addrs, n) =>
        if length ≠ (2 + 2 * addrs.length) % 256 then .error .invalidLength
        else .ok (⟨ty, addrs⟩, n)

/-- Source struct `SecuredServicesDIB`. -/
structure SecuredServicesDIB where
  Ty       : Nat
  Families : List ServiceFamily
deriving DecidableEq, Repr

/-- Source `SecuredServicesDIB.Unpack`: identical shape to
`SupportedServicesDIB.Unpack`. -/
def SecuredServicesDIB.Unpack (data : List Nat) :
    Except PErr (SecuredServicesDIB × Nat) :=
  if data.length < 2 then .error .shortInput
  else
    let length := data.getD 0 0
    let ty := data.getD 1 0
    match serviceFamiliesLoop data length 2 [] with
    | .error e => .error e
    | .ok (families, n) =>
        if length ≠ (2 + 2 * families.length) % 256 then .error .invalidLength
        else .ok (⟨ty, families⟩, n)

/-- Source struct `ManufacturerDataDIB`. -/
structure ManufacturerDataDIB where
  Ty   : Nat
  ID   : Nat
  Data : List Nat
deriving DecidableEq, Repr

/-- Source `ManufacturerDataDIB.Unpack`: 4 header bytes, `Data` is the
remainder of the given slice, and `length` must equal
`uint8(4 + len(Data))`; the returned count stays 4. -/
def ManufacturerDataDIB.Unpack (data : List Nat) :
    Except PErr (ManufacturerDataDIB × Nat) :=
  if data.length < 4 then .error .shortInput
  else
    let length := data.getD 0 0
    let mdib : ManufacturerDataDIB :=
      ⟨data.getD 1 0, data.getD 2 0 * 256 + data.getD 3 0, data.drop 4⟩
    if length ≠ (4 + (data.drop 4).length) % 256 then .error .invalidLength
    else .ok (mdib, 4)

/-- Source struct `TunnellingSlot`. -/
structure TunnellingSlot where
  Addr   : Nat
  Status : Nat
deriving DecidableEq, Repr

/-- Source `TunnellingSlot.Pack`: big-endian `uint16` address and
status. -/
def TunnellingSlot.Pack (ts : TunnellingSlot) : List Nat :=
  [(ts.Addr / 256) % 256, ts.Addr % 256, (ts.Status / 256) % 256, ts.Status % 256]

/-- Source `TunnellingSlot.Unpack`: requires 4 bytes, reads address and
status, and rejects a zero address. -/
def TunnellingSlot.Unpack (data : List Nat) : Except PErr (TunnellingSlot × Nat) :=
  if data.length < 4 then .error .shortInput
  else
    let ts : TunnellingSlot :=
      ⟨data.getD 0 0 * 256 + data.getD 1 0, data.getD 2 0 * 256 + data.getD 3 0⟩
    if ts.Addr = 0 then .error .invalidSlot
    else .ok (ts, 4)

/-- Source struct `TunnellingInfoDIB`. -/
structure TunnellingInfoDIB where
  Ty       : Nat
  APDUSize : Nat
  Slots    : List TunnellingSlot
deriving DecidableEq, Repr

/-- Source `TunnellingInfoDIB.Size`: `4 + 4·len(Slots)`. -/
def TunnellingInfoDIB.Size (tdib : TunnellingInfoDIB) : Nat :=
  4 + 4 * tdib.Slots.length

/-- Concatenation of packed tunnelling slots, as produced by the pack
loop of `TunnellingInfoDIB.Pack`. -/
def slotsBytes : List TunnellingSlot → List Nat
  | [] => []
  | s :: rest => s.Pack ++ slotsBytes rest

/-- Source `TunnellingInfoDIB.Pack`: `[uint8(Size), uint8(type),
APDUSize]` followed by the packed slots. -/
def TunnellingInfoDIB.Pack (tdib : TunnellingInfoDIB) : List Nat :=
  (tdib.Size % 256) :: (tdib.Ty % 256) ::
    (tdib.APDUSize / 256) % 256 :: tdib.APDUSize % 256 :: slotsBytes tdib.Slots

/-- Loop of `TunnellingInfoDIB.Unpack`: the source iterates
`for n < length` from `n = 4`, calling `TunnellingSlot.Unpack(data[n:])`
each round and double-checking the zero address; here `rem = data[n:]`
and `left = length - n`. -/
def tunnellingLoop (rem : List Nat) (left : Nat) (acc : List TunnellingSlot) :
    Except PErr (List TunnellingSlot) :=
  if left = 0 then .ok acc
  else
    match TunnellingSlot.Unpack rem with
    | .error e => .error e
    | .ok (s, _) =>
        if s.Addr = 0 then .error .invalidSlot
        else tunnellingLoop (rem.drop 4) (left - 4) (acc ++ [s])
termination_by left
decreasing_by omega

/-- Source `TunnellingInfoDIB.Unpack`: 4 header bytes, the slot loop,
then the `length == uint8(Size())` check on the recomputed size. -/
def TunnellingInfoDIB.Unpack (data : List Nat) :
    Except PErr (TunnellingInfoDIB × Nat) :=
  if data.length < 4 then .error .shortInput
  else
    let length := data.getD 0 0
    let ty := data.getD 1 0
    let apduSize := data.getD 2 0 * 256 + data.getD 3 0
    match tunnellingLoop (data.drop 4) (length - 4) [] with
    | .error e => .error e
    | .ok slots =>
        if length ≠ (4 + 4 * slots.length) % 256 then .error .invalidLength
        else .ok (⟨ty, apduSize, slots⟩, length)

/-- Source struct `ExtendedDeviceInfoDIB`. -/
structure ExtendedDeviceInfoDIB where
  Ty               : Nat
  MediumStatus     : Nat
  Reserved         : Nat
  APDUSize         : Nat
  DeviceDescriptor : Nat
deriving DecidableEq, Repr

/-- Source `ExtendedDeviceInfoDIB.Unpack`: 8 fixed bytes and the
`length == 8` check. -/
def ExtendedDeviceInfoDIB.Unpack (data : List Nat) :
    Except PErr (ExtendedDeviceInfoDIB × Nat) :=
  if data.length < 8 then .error .shortInput
  else
    let length := data.getD 0 0
    let edib : ExtendedDeviceInfoDIB :=
      ⟨data.getD 1 0, data.getD 2 0, data.getD 3 0,
        data.getD 4 0 * 256 + data.getD 5 0,
        data.getD 6 0 * 256 + data.getD 7 0⟩
    if length ≠ 8 then .error .invalidLength
    else .ok (edib, 8)

/-- Concatenation of packed service families: `ServiceFamily.Pack`
writes `uint8(f.Type), f.Version`, and the DIB pack loops emit the
families back to back. -/
def famBytes : List ServiceFamily → List Nat
  | [] => []
  | f :: rest => (f.Ty % 256) :: f.Version :: famBytes rest

/-- Source `SupportedServicesDIB.Size`: 2 plus `ServiceFamily.Size` (2)
per family. -/
def SupportedServicesDIB.Size (sdib : SupportedServicesDIB) : Nat :=
  2 + 2 * sdib.Families.length

/-- Source `SupportedServicesDIB.Pack`: `[uint8(Size), uint8(type)]`
followed by the packed families. -/
def SupportedServicesDIB.Pack (sdib : SupportedServicesDIB) : List Nat :=
  (sdib.Size % 256) :: (sdib.Ty % 256) :: famBytes sdib.Families

/-- Source `SecuredServicesDIB.Size`: 2 plus 2 per family. -/
def SecuredServicesDIB.Size (sdib : SecuredServicesDIB) : Nat :=
  2 + 2 * sdib.Families.length

/-- Source `SecuredServicesDIB.Pack`: identical shape to
`SupportedServicesDIB.Pack`. -/
def SecuredServicesDIB.Pack (sdib : SecuredServicesDIB) : List Nat :=
  (sdib.Size % 256) :: (sdib.Ty % 256) :: famBytes sdib.Families

/-- Source `DeviceInformationBlock.Size`: returns 54. -/
def DeviceInformationBlock.Size : Nat := 54

/-- Source `DeviceInformationBlock.Pack`: `[uint8(Size), uint8(type),
medium, status, source, project id, serial, multicast address, hardware
address]` followed by the friendly name padded to 30 bytes
(`util.PackString` is not under `src/` and is modelled from the spec:
the name is padded with NUL bytes to 30). -/
def DeviceInformationBlock.Pack (dib : DeviceInformationBlock) : List Nat :=
  DeviceInformationBlock.Size :: (dib.Ty % 256) :: (dib.Medium % 256) :: (dib.Status % 256) ::
    (dib.Source / 256) % 256 :: dib.Source % 256 ::
    (dib.ProjectIdentifier / 256) % 256 :: dib.ProjectIdentifier % 256 ::
    dib.SerialNumber.1 :: dib.SerialNumber.2.1 :: dib.SerialNumber.2.2.1 ::
    dib.SerialNumber.2.2.2.1 :: dib.SerialNumber.2.2.2.2.1 :: dib.SerialNumber.2.2.2.2.2 ::
    dib.RoutingMulticastAddress.1 :: dib.RoutingMulticastAddress.2.1 ::
    dib.RoutingMulticastAddress.2.2.1 :: dib.RoutingMulticastAddress.2.2.2 ::
    dib.HardwareAddr.1 :: dib.HardwareAddr.2.1 :: dib.HardwareAddr.2.2.1 ::
    dib.HardwareAddr.2.2.2.1 :: dib.HardwareAddr.2.2.2.2.1 :: dib.HardwareAddr.2.2.2.2.2 ::
    padTo dib.FriendlyName 30

/-- Source `IPCurrentConfigDIB.Size`: returns 20. -/
def IPCurrentConfigDIB.Size : Nat := 20

/-- Source `IPCurrentConfigDIB.Pack`: `[20, type, ip, mask, gateway,
dhcp server, assignment, reserved]`. -/
def IPCurrentConfigDIB.Pack (idib : IPCurrentConfigDIB) : List Nat :=
  IPCurrentConfigDIB.Size :: (idib.Ty % 256) ::
    idib.IP.1 :: idib.IP.2.1 :: idib.IP.2.2.1 :: idib.IP.2.2.2 ::
    idib.Mask.1 :: idib.Mask.2.1 :: idib.Mask.2.2.1 :: idib.Mask.2.2.2 ::
    idib.Gateway.1 :: idib.Gateway.2.1 :: idib.Gateway.2.2.1 :: idib.Gateway.2.2.2 ::
    idib.DHCPServer.1 :: idib.DHCPServer.2.1 :: idib.DHCPServer.2.2.1 :: idib.DHCPServer.2.2.2 ::
    [idib.IPAssignment, idib.Reserved]

/-- Concatenation of packed individual addresses (big-endian `uint16`),
as written by the pack loop of `KNXAddrsDIB.Pack`. -/
def addrBytes : List Nat → List Nat
  | [] => []
  | a :: rest => (a / 256) % 256 :: a % 256 :: addrBytes rest

/-- Source `KNXAddrsDIB.Size`: `2 + 2·len(KNXAddrs)`. -/
def KNXAddrsDIB.Size (kdib : KNXAddrsDIB) : Nat :=
  2 + 2 * kdib.KNXAddrs.length

/-- Source `KNXAddrsDIB.Pack`: `[uint8(Size), uint8(type)]` followed by
the big-endian addresses. -/
def KNXAddrsDIB.Pack (kdib : KNXAddrsDIB) : List Nat :=
  (kdib.Size % 256) :: (kdib.Ty % 256) :: addrBytes kdib.KNXAddrs

/-- Source `ManufacturerDataDIB.Size`: `4 + len(Data)`. -/
def ManufacturerDataDIB.Size (mdib : ManufacturerDataDIB) : Nat :=
  4 + mdib.Data.length

/-- Source `ManufacturerDataDIB.Pack`: `[uint8(Size), uint8(type), ID]`
followed by the manufacturer data. -/
def ManufacturerDataDIB.Pack (mdib : ManufacturerDataDIB) : List Nat :=
  (mdib.Size % 256) :: (mdib.Ty % 256) ::
    (mdib.ID / 256) % 256 :: mdib.ID % 256 :: mdib.Data

/-- Source `ExtendedDeviceInfoDIB.Size`: returns 8. -/
def ExtendedDeviceInfoDIB.Size : Nat := 8

/-- Source `ExtendedDeviceInfoDIB.Pack`: `[8, type, medium status,
reserved, APDU size, device descriptor]`. -/
def ExtendedDeviceInfoDIB.Pack (edib : ExtendedDeviceInfoDIB) : List Nat :=
  ExtendedDeviceInfoDIB.Size :: (edib.Ty % 256) :: edib.MediumStatus :: edib.Reserved ::
    (edib.APDUSize / 256) % 256 :: edib.APDUSize % 256 ::
    (edib.DeviceDescriptor / 256) % 256 :: [edib.DeviceDescriptor % 256]

/-! ## `SearchResExt.Unpack` (`knx/knxnet/search.go`) -/

/-- Modelled from the spec: `HostInfo` (the HPAI control endpoint) is an
external collaborator whose source is not under `src/`; its `Unpack`
consumes the 8-byte endpoint structure (self-inclusive length 8,
protocol, 4-byte address, 2-byte port) or fails with short input. -/
structure HostInfo where
  raw : List Nat
deriving DecidableEq, Repr

/-- Modelled from the spec: `HostInfo.Unpack` consumes 8 bytes. -/
def HostInfo.Unpack (data : List Nat) : Except PErr (HostInfo × Nat) :=
  if data.length < 8 then .error .shortInput
  else .ok (⟨data.take 8⟩, 8)

/-- A parsed DIB as collected in `SearchResExt.DIBs`. -/
inductive DIBVal where
  | deviceInfo (d : DeviceInformationBlock)
  | supportedServices (d : SupportedServicesDIB)
  | ipConfig (d : IPConfigDIB)
  | ipCurrentConfig (d : IPCurrentConfigDIB)
  | knxAddresses (d : KNXAddrsDIB)
  | securedServices (d : SecuredServicesDIB)
  | tunnellingInfo (d : TunnellingInfoDIB)
  | extendedDeviceInfo (d : ExtendedDeviceInfoDIB)
  | manufacturerData (d : ManufacturerDataDIB)
deriving DecidableEq, Repr

/-- The type codes handled by the `switch` of `SearchResExt.Unpack`. -/
def isKnownDIBType (ty : Nat) : Bool :=
  ty == DescriptionTypeDeviceInfo ||
  ty == DescriptionTypeSupportedServiceFamilies ||
  ty == DescriptionTypeIPConfig ||
  ty == DescriptionTypeIPCurrentConfig ||
  ty == DescriptionTypeKNXAddresses ||
  ty == DescriptionTypeSecuredServiceFamilies ||
  ty == DescriptionTypeTunnellingInfo ||
  ty == DescriptionTypeExtendedDeviceInfo ||
  ty == DescriptionTypeManufacturerData

/-- Dispatch of `SearchResExt.Unpack` on a known type code: the selected
DIB's `Unpack` applied to the slice `data[n : n+length]`. -/
def dibUnpackByType (ty : Nat) (slice : List Nat) : Except PErr DIBVal :=
  if ty = DescriptionTypeDeviceInfo then
    (DeviceInformationBlock.Unpack slice).map fun r => .deviceInfo r.1
  else if ty = DescriptionTypeSupportedServiceFamilies then
    (SupportedServicesDIB.Unpack slice).map fun r => .supportedServices r.1
  else if ty = DescriptionTypeIPConfig then
    (IPConfigDIB.Unpack slice).map fun r => .ipConfig r.1
  else if ty = DescriptionTypeIPCurrentConfig then
    (IPCurrentConfigDIB.Unpack slice).map fun r => .ipCurrentConfig r.1
  else if ty = DescriptionTypeKNXAddresses then
    (KNXAddrsDIB.Unpack slice).map fun r => .knxAddresses r.1
  else if ty = DescriptionTypeSecuredServiceFamilies then
    (SecuredServicesDIB.Unpack slice).map fun r => .securedServices r.1
  else if ty = DescriptionTypeTunnellingInfo then
    (TunnellingInfoDIB.Unpack slice).map fun r => .tunnellingInfo r.1
  else if ty = DescriptionTypeExtendedDeviceInfo then
    (ExtendedDeviceInfoDIB.Unpack slice).map fun r => .extendedDeviceInfo r.1
  else
    (ManufacturerDataDIB.Unpack slice).map fun r => .manufacturerData r.1

/-- The DIB loop of `SearchResExt.Unpack`: while `n < len(data)`, peek
`(length, type)`; a known type unpacks `data[n : n+length]` (a Go slice
expression that panics when out of range, modelled as `sliceBounds`) and
advances `n` by `length`; the `default` branch of the source executes
`continue` WITHOUT advancing `n`, so parsing an unknown type repeats the
same iteration forever — the recursion is therefore fuel-indexed, and
`none` means the loop has not terminated within the given fuel. -/
def searchResExtLoop (data : List Nat) :
    Nat → Nat → List DIBVal → Option (Except PErr (List DIBVal × Nat))
  | 0, _, _ => none
  | fuel + 1, n, acc =>
    if n < data.length then
      if (data.drop n).length < 2 then some (.error .shortInput)
      else
        let length := data.getD n 0
        let ty := data.getD (n + 1) 0
        if isKnownDIBType ty then
          if data.length < n + length then some (.error .sliceBounds)
          else
            match dibUnpackByType ty ((data.drop n).take length) with
            | .error e => some (.error e)
            | .ok dib => searchResExtLoop data fuel (n + length) (acc ++ [dib])
        else
          -- source: `continue` with `n` unchanged
          searchResExtLoop data fuel n acc
    else some (.ok (acc, n))

/-- Source `SearchResExt.Unpack`: unpack the `HostInfo` control
endpoint, then run the DIB loop (fuel-indexed; `none` means
non-termination within the fuel). -/
def SearchResExt.Unpack (fuel : Nat) (data : List Nat) :
    Option (Except PErr (List DIBVal × Nat)) :=
  match HostInfo.Unpack data with
  | .error e => some (.error e)
  | .ok (_, n) => searchResExtLoop data fuel n []

deriving instance DecidableEq for Except

/-! ## Helper lemmas for the transport codec proofs -/

theorem slotsBytes_length (slots : List TunnellingSlot) :
    (slotsBytes slots).length = 4 * slots.length := by
  induction slots with
  | nil => rfl
  | cons s rest ih =>
      simp only [slotsBytes, TunnellingSlot.Pack, List.length_append, List.length_cons,
        List.length_nil, ih]
      omega

theorem tunnellingSlotUnpack_cons (a0 a1 b0 b1 : Nat) (rest : List Nat)
    (h : a0 * 256 + a1 ≠ 0) :
    TunnellingSlot.Unpack (a0 :: a1 :: b0 :: b1 :: rest) =
      .ok (⟨a0 * 256 + a1, b0 * 256 + b1⟩, 4) := by
  rw [TunnellingSlot.Unpack]
  simp only [List.length_cons, List.getD_cons_zero, List.getD_cons_succ]
  rw [if_neg (by omega), if_neg h]

theorem tunnellingSlotUnpack_cons_zero (a0 a1 b0 b1 : Nat) (rest : List Nat)
    (h : a0 * 256 + a1 = 0) :
    TunnellingSlot.Unpack (a0 :: a1 :: b0 :: b1 :: rest) = .error .invalidSlot := by
  rw [TunnellingSlot.Unpack]
  simp only [List.length_cons, List.getD_cons_zero, List.getD_cons_succ]
  rw [if_neg (by omega), if_pos h]

theorem tunnellingLoop_step (rem : List Nat) (left : Nat) (acc : List TunnellingSlot)
    (s : TunnellingSlot) (hleft : left ≠ 0)
    (hunp : TunnellingSlot.Unpack rem = .ok (s, 4)) (hs : s.Addr ≠ 0) :
    tunnellingLoop rem left acc = tunnellingLoop (rem.drop 4) (left - 4) (acc ++ [s]) := by
  rw [tunnellingLoop, if_neg hleft, hunp]
  simp [hs]

theorem tunnellingLoop_step_err (rem : List Nat) (left : Nat) (acc : List TunnellingSlot)
    (e : PErr) (hleft : left ≠ 0) (hunp : TunnellingSlot.Unpack rem = .error e) :
    tunnellingLoop rem left acc = .error e := by
  rw [tunnellingLoop, if_neg hleft, hunp]

theorem tunnellingLoop_ok (slots : List TunnellingSlot)
    (hwf : ∀ s ∈ slots, s.Addr ≠ 0 ∧ s.Addr < 65536 ∧ s.Status < 65536) :
    ∀ acc, tunnellingLoop (slotsBytes slots) (4 * slots.length) acc = .ok (acc ++ slots) := by
  induction slots with
  | nil => intro acc; rw [tunnellingLoop]; simp
  | cons s rest ih =>
      intro acc
      obtain ⟨hs0, hsa, hss⟩ := hwf s (by simp)
      have hrem : slotsBytes (s :: rest) =
          (s.Addr / 256) % 256 :: s.Addr % 256 :: (s.Status / 256) % 256 :: s.Status % 256 ::
            slotsBytes rest := by
        simp [slotsBytes, TunnellingSlot.Pack]
      have hunp : TunnellingSlot.Unpack (slotsBytes (s :: rest)) = .ok (s, 4) := by
        rw [hrem, tunnellingSlotUnpack_cons _ _ _ _ _ (by omega)]
        have haddr : (s.Addr / 256) % 256 * 256 + s.Addr % 256 = s.Addr := by omega
        have hstat : (s.Status / 256) % 256 * 256 + s.Status % 256 = s.Status := by omega
        rw [haddr, hstat]
      rw [tunnellingLoop_step _ _ _ s (by simp) hunp hs0]
      rw [hrem]
      simp only [List.drop_succ_cons, List.drop_zero, List.length_cons]
      have h4 : 4 * (rest.length + 1) - 4 = 4 * rest.length := by omega
      rw [h4]
      rw [ih (fun x hx => hwf x (by simp [hx])) (acc ++ [s])]
      simp

theorem tunnellingLoop_zero (slots : List TunnellingSlot)
    (hex : ∃ s ∈ slots, s.Addr = 0) :
    ∀ acc, tunnellingLoop (slotsBytes slots) (4 * slots.length) acc = .error .invalidSlot := by
  induction slots with
  | nil => simp at hex
  | cons s rest ih =>
      intro acc
      have hrem : slotsBytes (s :: rest) =
          (s.Addr / 256) % 256 :: s.Addr % 256 :: (s.Status / 256) % 256 :: s.Status % 256 ::
            slotsBytes rest := by
        simp [slotsBytes, TunnellingSlot.Pack]
      by_cases hz : (s.Addr / 256) % 256 * 256 + s.Addr % 256 = 0
      · have hunp : TunnellingSlot.Unpack (slotsBytes (s :: rest)) = .error .invalidSlot := by
          rw [hrem, tunnellingSlotUnpack_cons_zero _ _ _ _ _ hz]
        exact tunnellingLoop_step_err _ _ _ _ (by simp) hunp
      · have hunp : TunnellingSlot.Unpack (slotsBytes (s :: rest)) =
            .ok (⟨(s.Addr / 256) % 256 * 256 + s.Addr % 256,
              (s.Status / 256) % 256 * 256 + s.Status % 256⟩, 4) := by
          rw [hrem, tunnellingSlotUnpack_cons _ _ _ _ _ hz]
        rw [tunnellingLoop_step _ _ _ _ (by simp) hunp hz]
        rw [hrem]
        simp only [List.drop_succ_cons, List.drop_zero, List.length_cons]
        have h4 : 4 * (rest.length + 1) - 4 = 4 * rest.length := by omega
        rw [h4]
        have hwit : ∃ x ∈ rest, x.Addr = 0 := by
          obtain ⟨w, hw, hw0⟩ := hex
          rcases List.mem_cons.mp hw with hws | hwr
          · exfalso
            apply hz
            rw [hws] at hw0
            rw [hw0]
          · exact ⟨w, hwr, hw0⟩
        exact ih hwit _

theorem padTo_length_self (l : List Nat) : padTo l l.length = l := by
  simp [padTo]

theorem and3_lt (x : Nat) : x &&& 3 < 4 :=
  Nat.lt_succ_of_le (Nat.and_le_right)

theorem b1_facts : ∀ s < 16, ∀ q < 4, ∀ nb : Bool,
    (((if nb then (1 <<< 6) ||| ((s &&& 15) <<< 2) else 0) ||| q) &&& (1 <<< 7) ≠ 1 <<< 7) ∧
    ((((if nb then (1 <<< 6) ||| ((s &&& 15) <<< 2) else 0) ||| q) &&& (1 <<< 6) == 1 <<< 6) = nb) ∧
    ((((if nb then (1 <<< 6) ||| ((s &&& 15) <<< 2) else 0) ||| q) >>> 2) &&& 15 = if nb then s else 0) ∧
    (((if nb then (1 <<< 6) ||| ((s &&& 15) <<< 2) else 0) ||| q) &&& 3 = q) := by decide

set_option maxRecDepth 4096 in
theorem d0_facts : ∀ h < 256, ∀ y < 4,
    (((h &&& 63) ||| (y <<< 6)) >>> 6 = y) ∧
    (((h &&& 63) ||| (y <<< 6)) &&& 63 = h &&& 63) := by decide

set_option maxRecDepth 4096 in
theorem p_recover : ∀ c < 1024, ((((c >>> 8) &&& 3) <<< 2) ||| ((c >>> 6) &&& 3)) = c >>> 6 := by
  decide

set_option maxRecDepth 4096 in
theorem std_facts : ∀ c < 1024, APCI.IsStandardCommand c = true →
    c >>> 6 ≠ 11 ∧ c >>> 6 ≠ 15 ∧ (c >>> 6) <<< 6 = c := by decide

set_option maxRecDepth 4096 in
theorem ext_facts : ∀ c < 1024, (c >>> 6 = 11 ∨ c >>> 6 = 15) →
    APCI.IsStandardCommand c = false ∧
    ((((c >>> 8) &&& 3) <<< 2) ||| ((c &&& 255) >>> 6)) = c >>> 6 ∧
    (((c >>> 6) <<< 6) ||| (c &&& 255)) = c := by decide

/-! ## Claim C1 — `AppData` round trip -/

/-- C1 (amended): for every 10-bit APCI that either is a standard command
or has high four bits 11 (UserMessage) or 15 (Escape), every payload of
1 to 255 bytes (at most 254 for the extended encodings, whose
self-inclusive length byte `byte(len+1)` would otherwise wrap to 0 and
make the unpack fail with short input), and every numbered flag and
4-bit sequence number with `numbered = true` or `seq = 0`, unpacking the
bytes produced by packing the `AppData` yields the same `AppData`,
except that standard commands zero the high two bits of the first
payload byte. -/
theorem appData_pack_unpack (app : AppData)
    (hc : app.Command < 1024) (hs : app.SeqNumber < 16)
    (h1 : 1 ≤ app.Data.length) (h255 : app.Data.length ≤ 255)
    (hext255 : app.Command.IsStandardCommand = true ∨ app.Data.length ≤ 254)
    (hb : ∀ b ∈ app.Data, b < 256)
    (hnum : app.Numbered = true ∨ app.SeqNumber = 0)
    (hgood : app.Command.IsStandardCommand = true ∨ app.Command >>> 6 = 11 ∨ app.Command >>> 6 = 15) :
    unpackTransportUnit app.Pack =
      .ok (.app ⟨app.Numbered, app.SeqNumber, app.Command,
        if app.Command.IsStandardCommand then
          match app.Data with
          | [] => []
          | h :: t => (h &&& 63) :: t
        else app.Data⟩,
        if app.Command.IsStandardCommand then app.Data.length + 2 else app.Data.length + 3) := by
  obtain ⟨nb, s, c, d⟩ := app
  simp only at hc hs h1 h255 hext255 hb hnum hgood ⊢
  match d, h1 with
  | h :: t, _ =>
  have hh : h < 256 := hb h (List.mem_cons_self h t)
  have hq : (c >>> 8) &&& 3 < 4 := and3_lt _
  have hclamp :
      (if (h :: t).length > 255 then 255
        else if (h :: t).length < 1 then 1 else (h :: t).length) = t.length + 1 := by
    simp only [List.length_cons] at h255 ⊢
    rw [if_neg (by omega), if_neg (by omega)]
  have hpad : padTo (h :: t) (t.length + 1) = h :: t := by
    simpa using padTo_length_self (h :: t)
  have hb1 := b1_facts s hs ((c >>> 8) &&& 3) hq nb
  set b1v := (if nb = true then (1 : Nat) <<< 6 ||| (s &&& 15) <<< 2 else 0) ||| ((c >>> 8) &&& 3)
    with hb1v
  rcases hgood with hstd | hext
  · -- standard command
    obtain ⟨hne11, hne15, hshift⟩ := std_facts c hc hstd
    have hd0 := d0_facts h hh ((c >>> 6) &&& 3) (and3_lt _)
    have hm : (t.length + 1) % 256 = t.length + 1 := by
      simp only [List.length_cons] at h255
      exact Nat.mod_eq_of_lt (by omega)
    rw [AppData.Pack]
    simp only [hstd, if_true, hclamp, hm, List.headD_cons, List.tail_cons, ← hb1v, hpad]
    rw [unpackTransportUnit]
    simp only [List.length_cons, List.getD_cons_succ, List.getD_cons_zero, List.drop_succ_cons,
      List.drop_zero, List.tail_cons, List.headD_cons]
    rw [if_neg (by omega), if_neg hb1.1, if_neg (by omega)]
    rw [hb1.2.2.2, hd0.1, p_recover c hc]
    rw [if_neg (by
      simp only [PrefixUserMessage, PrefixEscape]
      rintro (hx | hx)
      · exact hne11 hx
      · exact hne15 hx)]
    have hpad2 : padTo (((h &&& 63) ||| (((c >>> 6) &&& 3) <<< 6)) :: t) (t.length + 1) =
        ((h &&& 63) ||| (((c >>> 6) &&& 3) <<< 6)) :: t := by
      simpa using padTo_length_self (((h &&& 63) ||| (((c >>> 6) &&& 3) <<< 6)) :: t)
    rw [hpad2]
    simp only [hd0.2, hshift, hb1.2.1, hb1.2.2.1]
    cases nb with
    | true => simp
    | false =>
        rcases hnum with hnum | hnum
        · exact absurd hnum (by simp)
        · subst hnum
          simp
  · -- extended command: APCI prefix 11 or 15
    obtain ⟨hnstd, hprec, hcmd⟩ := ext_facts c hc hext
    have hlen254 : t.length ≤ 253 := by
      rcases hext255 with hx | hx
      · rw [hnstd] at hx
        exact absurd hx (by simp)
      · simp only [List.length_cons] at hx
        omega
    have hm : (t.length + 1 + 1) % 256 = t.length + 1 + 1 := Nat.mod_eq_of_lt (by omega)
    rw [AppData.Pack]
    simp only [hnstd, Bool.false_eq_true, if_false, hclamp, hm, ← hb1v, hpad]
    rw [unpackTransportUnit]
    simp only [List.length_cons, List.getD_cons_succ, List.getD_cons_zero, List.drop_succ_cons,
      List.drop_zero, List.tail_cons, List.headD_cons]
    rw [if_neg (by omega), if_neg hb1.1, if_neg (by omega)]
    rw [hb1.2.2.2, hprec]
    rw [if_pos (by simpa [PrefixUserMessage, PrefixEscape] using hext)]
    have hpad3 : padTo (h :: t) (t.length + 1 + 1 - 1) = h :: t := by
      simpa using hpad
    rw [hpad3]
    simp only [hcmd, hb1.2.1, hb1.2.2.1]
    have hcount : t.length + 1 + 1 + 2 = t.length + 1 + 3 := by omega
    rw [hcount]
    cases nb with
    | true => simp
    | false =>
        rcases hnum with hnum | hnum
        · exact absurd hnum (by simp)
        · subst hnum
          simp

/-- C1 counterexample: packing `AppData{numbered=false, seq=5,
MemoryExtendedRead=0b0111111101, [AA BB]}` and unpacking the result
yields command 448 (= `AdcResponse`), sequence number 0 and a payload
with the APCI low byte prepended — not the original `AppData`, contrary
to the claim (the unpack treats prefix-7 extended APCIs as standard, and
an unnumbered unit does not carry its sequence number). -/
theorem appData_roundTrip_cex :
    unpackTransportUnit (AppData.Pack ⟨false, 5, MemoryExtendedRead, [0xAA, 0xBB]⟩) =
      .ok (.app ⟨false, 0, 448, [0x3D, 0xAA, 0xBB]⟩, 5) ∧
    (448 : APCI) ≠ MemoryExtendedRead ∧ (0 : Nat) ≠ 5 ∧
    ([0x3D, 0xAA, 0xBB] : List Nat) ≠ [0xAA, 0xBB] := by decide

/-- C1 witness: the amended round-trip law applied to the concrete
standard command `GroupValueWrite` with payload `[0x01]`. -/
theorem appData_roundTrip_witness :
    unpackTransportUnit (AppData.Pack ⟨false, 0, GroupValueWrite, [0x01]⟩) =
      .ok (.app ⟨false, 0, GroupValueWrite, [0x01]⟩, 3) := by
  have h := appData_pack_unpack ⟨false, 0, GroupValueWrite, [0x01]⟩
    (by decide) (by decide) (by decide) (by decide) (Or.inl (by decide))
    (by decide) (Or.inr rfl) (Or.inl (by decide))
  simpa using h

/-! ## Claim C2 — truncation guard of `unpackTransportUnit` -/

/-- C2: the truncation guard `dataLength+2 < len(data)` of
`unpackTransportUnit` is inverted.  On `[05 00 81]` (declared data
length 5 but only 3 bytes of input) the code succeeds, zero-padding the
missing bytes, instead of failing with the short-input error; on
`[01 00 81 00]` (declared data length 1 with 4 ≥ 3 bytes of input) it
fails with the short-input error even though enough bytes are present. -/
theorem unpackTransportUnit_truncation_bug :
    unpackTransportUnit [0x05, 0x00, 0x81] =
      .ok (.app ⟨false, 0, 0x080, [0x01, 0x00, 0x00, 0x00, 0x00]⟩, 7) ∧
    unpackTransportUnit [0x01, 0x00, 0x81, 0x00] = .error .shortInput := by decide

/-! ## Claim C5 — `ControlData` round trip -/

/-- C5 (amended): a `ControlData` value round-trips through pack and
unpack provided it satisfies the source invariants — the command is a
2-bit TPCI, the sequence number is 4-bit, `Numbered` holds exactly for
`Ack`/`Nak` (commands 2 and 3), and `Connect`/`Disconnect` carry
sequence number 0.  In particular `T_ACK` with sequence 5 packs to
`00 D6` and unpacks to the `Ack(5)` variant. -/
theorem controlData_pack_unpack (cd : ControlData)
    (hcmd : cd.Command < 4) (hseq : cd.SeqNumber < 16)
    (hnum : cd.Numbered = decide (2 ≤ cd.Command))
    (hconn : cd.Command < 2 → cd.SeqNumber = 0) :
    unpackTransportUnit cd.Pack = .ok (.control cd, 2) := by
  obtain ⟨nb, s, c⟩ := cd
  simp only at hcmd hseq hnum hconn ⊢
  interval_cases c <;> interval_cases s <;> cases nb <;> revert hnum hconn <;> decide

/-- C5 counterexample: a numbered `Connect` control unit with sequence
number 5 packs to `[00 D4]`, which unpacks to the plain `TConnect`
variant (unnumbered, sequence 0) — not the original value, so the
universally quantified round-trip claim fails. -/
theorem controlData_pack_unpack_cex :
    unpackTransportUnit (ControlData.Pack ⟨true, 5, 0⟩) =
      .ok (.control ⟨false, 0, 0⟩, 2) ∧
    (⟨false, 0, 0⟩ : ControlData) ≠ ⟨true, 5, 0⟩ := by decide

/-- C5 witness: the amended round trip at the concrete `T_ACK seq=5`
scenario, whose wire form is `00 D6`. -/
theorem controlData_pack_unpack_witness :
    unpackTransportUnit (ControlData.Pack ⟨true, 5, 2⟩) = .ok (.control ⟨true, 5, 2⟩, 2) ∧
    ControlData.Pack ⟨true, 5, 2⟩ = [0x00, 0xD6] :=
  ⟨controlData_pack_unpack ⟨true, 5, 2⟩ (by decide) (by decide) (by decide) (by decide),
    by decide⟩

/-! ## Claim C6 — `IsStandardCommand` predicate -/

/-- C6: `IsStandardCommand` (a total function on the 10-bit APCI range)
returns `false` on `UserMemoryRead = 0b1011000000`, and returns `true`
for every 10-bit APCI whose low 6 bits are zero, whose high 4 bits are
below 15, and which is not `UserMemoryRead`. -/
theorem isStandardCommand_spec :
    APCI.IsStandardCommand UserMemoryRead = false ∧
    (∀ a < 1024, (a &&& 0x3F) = 0 → a >>> 6 < 15 → a ≠ UserMemoryRead →
      APCI.IsStandardCommand a = true) := by
  set_option maxRecDepth 4096 in decide

/-- C6 witness: the predicate applied at the standard command
`GroupValueWrite`. -/
theorem isStandardCommand_spec_witness :
    APCI.IsStandardCommand GroupValueWrite = true :=
  isStandardCommand_spec.2 GroupValueWrite (by decide) (by decide) (by decide) (by decide)

/-! ## Claim C7 — sequence number allocation -/

/-- C7: a fresh P2P session starts with `seqNumber = 15`, and 17
successive allocations via `nextSeqNum` produce the sequence
`0, 1, ..., 15, 0`. -/
theorem seqNums_first_seventeen :
    newP2PSeqNumber = 15 ∧
    seqNumsFrom newP2PSeqNumber 17 =
      [0, 1, 2, 3, 4, 5, 6, 7, 8, 9, 10, 11, 12, 13, 14, 15, 0] := by decide

/-! ## Claim C8 — `Management.Connect` registry discipline -/

/-- C8: `Management.Connect` returns an existing connected entry and
leaves the registry unchanged; a stale (disconnected) entry is evicted
and a fresh session stored in its place; when session creation fails the
error propagates and no entry remains for that address; otherwise the
new session is stored under the address, other entries untouched. -/
theorem management_connect_spec (reg : Registry) (addr : Nat)
    (conn c : ConnSt) (e : Unit) :
    (reg addr = some conn → conn.connected = true →
      Management.Connect reg addr (.ok c) = (.ok conn, reg) ∧
      Management.Connect reg addr (.error e) = (.ok conn, reg)) ∧
    (reg addr = some conn → conn.connected = false →
      (Management.Connect reg addr (.ok c)).1 = .ok c ∧
      (Management.Connect reg addr (.ok c)).2 addr = some c ∧
      (Management.Connect reg addr (.error e)).1 = .error e ∧
      (Management.Connect reg addr (.error e)).2 addr = none) ∧
    (reg addr = none →
      (Management.Connect reg addr (.error e)).1 = .error e ∧
      (Management.Connect reg addr (.error e)).2 = reg ∧
      (Management.Connect reg addr (.ok c)).1 = .ok c ∧
      (Management.Connect reg addr (.ok c)).2 addr = some c) ∧
    (∀ a, a ≠ addr → (Management.Connect reg addr (.ok c)).2 a = reg a) := by
  refine ⟨fun hsome hconn => ?_, fun hsome hconn => ?_, fun hnone => ?_, fun a ha => ?_⟩
  · simp [Management.Connect, hsome, hconn]
  · simp [Management.Connect, hsome, hconn]
  · simp [Management.Connect, hnone]
  · unfold Management.Connect
    cases hsome : reg addr with
    | none => simp [ha]
    | some conn' =>
        cases hconn' : conn'.connected <;> simp [hconn', ha]

/-- C8 witness: the specification applied to a concrete one-entry
registry holding a connected session at address 1. -/
theorem management_connect_spec_witness :
    Management.Connect
        (fun a => if a = 1 then some ⟨true, false⟩ else none) 1 (.ok ⟨true, false⟩) =
      (.ok ⟨true, false⟩, fun a => if a = 1 then some ⟨true, false⟩ else none) :=
  ((management_connect_spec (fun a => if a = 1 then some ⟨true, false⟩ else none) 1
      ⟨true, false⟩ ⟨true, false⟩ ()).1 (by simp) rfl).1

/-! ## Claim C9 — `Management.Disconnect` error path -/

/-- C9: for an address present in the registry, `Management.Disconnect`
removes the entry only when the session's `Disconnect` returns no error;
when the tunnel send of the `T_DISCONNECT` request fails on a connected
session, the error is returned, the entry remains in the map, and the
session is nevertheless marked disconnected with its `done` signal
closed. -/
theorem management_disconnect_spec (reg : Registry) (addr : Nat)
    (conn : ConnSt) (sendFails : Bool) :
    (reg addr = some conn → conn.connected = true →
      (Management.Disconnect reg addr true).2 = some .sendFailed ∧
      (Management.Disconnect reg addr true).1 addr = some ⟨false, true⟩) ∧
    (reg addr = some conn →
      (Management.Disconnect reg addr sendFails).1 addr = none →
      (Management.Disconnect reg addr sendFails).2 = none) := by
  constructor
  · intro hsome hconn
    simp [Management.Disconnect, hsome, P2PConnection.Disconnect, hconn]
  · intro hsome
    unfold Management.Disconnect P2PConnection.Disconnect
    rw [hsome]
    cases hconn : conn.connected <;> cases sendFails <;> simp [hconn]

/-- C9 witness: the specification applied to a concrete one-entry
registry with a connected session at address 1 and a failing tunnel
send. -/
theorem management_disconnect_spec_witness :
    (Management.Disconnect (fun a => if a = 1 then some ⟨true, false⟩ else none) 1 true).2 =
        some .sendFailed ∧
    (Management.Disconnect (fun a => if a = 1 then some ⟨true, false⟩ else none) 1 true).1 1 =
        some ⟨false, true⟩ :=
  (management_disconnect_spec (fun a => if a = 1 then some ⟨true, false⟩ else none) 1
      ⟨true, false⟩ true).1 (by simp) rfl

/-! ## Claim C3 — heterogeneous DIB parsers -/

/-- C3: the claim fails for `SearchResExt.Unpack`.  On a payload whose
DIB section starts with an unknown type code (here 0x09, declared
length 3), the `default` branch of the source executes `continue`
without advancing the cursor, so the parser re-reads the same header
forever: for every fuel bound the fuel-indexed loop fails to terminate,
instead of skipping the DIB by its declared length. -/
theorem searchResExt_unknown_dib_loops :
    ∀ fuel, SearchResExt.Unpack fuel [8, 1, 0, 0, 0, 0, 0, 0, 3, 9, 0] = none := by
  intro fuel
  induction fuel with
  | zero => rfl
  | succ k ih =>
      have hstep : SearchResExt.Unpack (k + 1) [8, 1, 0, 0, 0, 0, 0, 0, 3, 9, 0] =
          SearchResExt.Unpack k [8, 1, 0, 0, 0, 0, 0, 0, 3, 9, 0] := by
        show searchResExtLoop [8, 1, 0, 0, 0, 0, 0, 0, 3, 9, 0] (k + 1) 8 [] =
          searchResExtLoop [8, 1, 0, 0, 0, 0, 0, 0, 3, 9, 0] k 8 []
        rw [searchResExtLoop]
        norm_num [isKnownDIBType, DescriptionTypeDeviceInfo,
          DescriptionTypeSupportedServiceFamilies, DescriptionTypeIPConfig,
          DescriptionTypeIPCurrentConfig, DescriptionTypeKNXAddresses,
          DescriptionTypeSecuredServiceFamilies, DescriptionTypeTunnellingInfo,
          DescriptionTypeExtendedDeviceInfo, DescriptionTypeManufacturerData]
      rw [hstep]
      exact ih

theorem pld_facts : ∀ t < 128, ∀ m : Bool,
    ((((if m then 128 else 0) ||| t) &&& 128 != 0) = m) ∧
    (((if m then 128 else 0) ||| t) &&& 127 = t) := by decide

theorem map_mod256_eq (l : List Nat) (h : ∀ b ∈ l, b < 256) : l.map (· % 256) = l := by
  induction l with
  | nil => rfl
  | cons a t ih =>
      simp only [List.map_cons, Nat.mod_eq_of_lt (h a (by simp)), List.cons.injEq, true_and]
      exact ih fun b hb => h b (by simp [hb])

theorem padTo_length (l : List Nat) (n : Nat) (h : l.length ≤ n) :
    (padTo l n).length = n := by
  simp [padTo]
  omega

theorem getD_drop (data : List Nat) (n k : Nat) :
    (data.drop n).getD k 0 = data.getD (n + k) 0 := by
  simp [List.getD_eq_getElem?_getD, List.getElem?_drop]

theorem famBytes_length (fams : List ServiceFamily) :
    (famBytes fams).length = 2 * fams.length := by
  induction fams with
  | nil => rfl
  | cons f rest ih => simp [famBytes, ih]; omega

theorem addrBytes_length (addrs : List Nat) :
    (addrBytes addrs).length = 2 * addrs.length := by
  induction addrs with
  | nil => rfl
  | cons a rest ih => simp [addrBytes, ih]; omega

theorem takeWhile_replicate_zero (n : Nat) :
    (List.replicate n (0 : Nat)).takeWhile (fun b => b ≠ 0) = [] := by
  cases n with
  | zero => rfl
  | succ k => simp [List.replicate_succ, List.takeWhile_cons]

theorem takeWhile_padTo (name : List Nat) :
    ∀ n, name.length ≤ n → (∀ b ∈ name, b ≠ 0) →
      (padTo name n).takeWhile (fun b => b ≠ 0) = name := by
  induction name with
  | nil =>
      intro n _ _
      simp only [padTo, List.take_nil, List.nil_append, List.length_nil, Nat.sub_zero]
      exact takeWhile_replicate_zero n
  | cons a t ih =>
      intro n hn hb
      cases n with
      | zero => simp at hn
      | succ m =>
          have hpad : padTo (a :: t) (m + 1) = a :: padTo t m := by
            have hc : m + 1 - (a :: t).length = m - t.length := by
              simp only [List.length_cons]
              omega
            simp only [padTo, hc, List.take_succ_cons, List.cons_append]
          rw [hpad, List.takeWhile_cons]
          rw [if_pos (by simp [hb a (by simp)])]
          rw [ih m (by simp at hn; omega) (fun b hbm => hb b (by simp [hbm]))]

theorem serviceFamiliesLoop_ok (fams : List ServiceFamily) :
    ∀ (data : List Nat) (length n : Nat) (acc : List ServiceFamily),
      data.drop n = famBytes fams →
      length = n + 2 * fams.length →
      (∀ f ∈ fams, f.Ty < 256) →
      serviceFamiliesLoop data length n acc = .ok (acc ++ fams, length) := by
  induction fams with
  | nil =>
      intro data length n acc hdrop hlen _
      simp only [List.length_nil, Nat.mul_zero, Nat.add_zero] at hlen
      rw [serviceFamiliesLoop, if_neg (by omega)]
      simp [hlen]
  | cons f rest ih =>
      intro data length n acc hdrop hlen hty
      simp only [famBytes] at hdrop
      simp only [List.length_cons] at hlen
      rw [serviceFamiliesLoop, if_pos (by omega)]
      rw [if_neg (by rw [hdrop]; simp)]
      have hg0 : data.getD n 0 = f.Ty % 256 := by
        have := getD_drop data n 0
        rw [hdrop] at this
        simpa using this.symm
      have hg1 : data.getD (n + 1) 0 = f.Version := by
        have := getD_drop data n 1
        rw [hdrop] at this
        simpa using this.symm
      rw [hg0, hg1, Nat.mod_eq_of_lt (hty f (by simp))]
      have hdrop2 : data.drop (n + 2) = famBytes rest := by
        have h := congrArg (List.drop 2) hdrop
        simp only [List.drop_succ_cons, List.drop_zero] at h
        rw [List.drop_drop] at h
        exact h
      have hrec : serviceFamiliesLoop data length (n + 2) (acc ++ [⟨f.Ty, f.Version⟩]) =
          .ok ((acc ++ [⟨f.Ty, f.Version⟩]) ++ rest, length) :=
        ih data length (n + 2) (acc ++ [⟨f.Ty, f.Version⟩]) hdrop2 (by omega)
          (fun x hx => hty x (by simp [hx]))
      rw [hrec]
      simp

theorem knxAddrsLoop_ok (addrs : List Nat) :
    ∀ (data : List Nat) (length n : Nat) (acc : List Nat),
      data.drop n = addrBytes addrs →
      length = n + 2 * addrs.length →
      (∀ a ∈ addrs, a < 65536) →
      knxAddrsLoop data length n acc = .ok (acc ++ addrs, length) := by
  induction addrs with
  | nil =>
      intro data length n acc hdrop hlen _
      simp only [List.length_nil, Nat.mul_zero, Nat.add_zero] at hlen
      rw [knxAddrsLoop, if_neg (by omega)]
      simp [hlen]
  | cons a rest ih =>
      intro data length n acc hdrop hlen ha
      simp only [addrBytes] at hdrop
      simp only [List.length_cons] at hlen
      rw [knxAddrsLoop, if_pos (by omega)]
      rw [if_neg (by rw [hdrop]; simp)]
      have hg0 : data.getD n 0 = (a / 256) % 256 := by
        have := getD_drop data n 0
        rw [hdrop] at this
        simpa using this.symm
      have hg1 : data.getD (n + 1) 0 = a % 256 := by
        have := getD_drop data n 1
        rw [hdrop] at this
        simpa using this.symm
      rw [hg0, hg1]
      have haddr : (a / 256) % 256 * 256 + a % 256 = a := by
        have := ha a (by simp)
        omega
      rw [haddr]
      have hdrop2 : data.drop (n + 2) = addrBytes rest := by
        have h := congrArg (List.drop 2) hdrop
        simp only [List.drop_succ_cons, List.drop_zero] at h
        rw [List.drop_drop] at h
        exact h
      have hrec : knxAddrsLoop data length (n + 2) (acc ++ [a]) =
          .ok ((acc ++ [a]) ++ rest, length) :=
        ih data length (n + 2) (acc ++ [a]) hdrop2 (by omega)
          (fun x hx => ha x (by simp [hx]))
      rw [hrec]
      simp

/-! ## Claim C4 — DIB and SRP round trips -/

/-- C4 (amended): `unpack(pack(x)) = x` holds for every DIB value with
byte-range scalar fields — `DeviceInformationBlock` (with a NUL-free
friendly name of at most 30 bytes), `SupportedServicesDIB` and
`SecuredServicesDIB` (at most 126 byte-range families),
`IPConfigDIB`, `IPCurrentConfigDIB`, `KNXAddrsDIB` (at most 126
16-bit addresses), `TunnellingInfoDIB` (at most 62 slots, all with
non-zero 16-bit addresses), `ExtendedDeviceInfoDIB`, and
`ManufacturerDataDIB` (at most 251 data bytes; its unpack consumes 4
bytes but recovers the full value) — the element-count bounds only
keeping the self-inclusive 8-bit length byte from wrapping.
`RequestDIBs` round-trips exactly for an even number (at most 252) of
byte-range description types; with an odd count (at most 251) the
unpacked value gains a 0x00 padding type, because `uint8(2+count)`
wraps at count 254 and the Go slice `data[2:length]` panics.
`SelectProgMode`, `SelectMACAddr` and `SelectSrvSRP` never round-trip:
their `Pack` omits the leading length byte their `Unpack` requires, so
unpacking their packed form fails with short input. -/
theorem srp_dib_roundTrip :
    (∀ x : DeviceInformationBlock, x.Ty < 256 → x.Medium < 256 → x.Status < 256 →
      x.Source < 65536 → x.ProjectIdentifier < 65536 →
      x.FriendlyName.length ≤ 30 → (∀ b ∈ x.FriendlyName, b ≠ 0) →
      DeviceInformationBlock.Unpack x.Pack = .ok (x, 54)) ∧
    (∀ x : SupportedServicesDIB, x.Ty < 256 → x.Families.length ≤ 126 →
      (∀ f ∈ x.Families, f.Ty < 256) →
      SupportedServicesDIB.Unpack x.Pack = .ok (x, 2 + 2 * x.Families.length)) ∧
    (∀ x : IPConfigDIB, x.Ty < 256 → IPConfigDIB.Unpack x.Pack = .ok (x, 16)) ∧
    (∀ x : IPCurrentConfigDIB, x.Ty < 256 →
      IPCurrentConfigDIB.Unpack x.Pack = .ok (x, 20)) ∧
    (∀ x : KNXAddrsDIB, x.Ty < 256 → x.KNXAddrs.length ≤ 126 →
      (∀ a ∈ x.KNXAddrs, a < 65536) →
      KNXAddrsDIB.Unpack x.Pack = .ok (x, 2 + 2 * x.KNXAddrs.length)) ∧
    (∀ x : SecuredServicesDIB, x.Ty < 256 → x.Families.length ≤ 126 →
      (∀ f ∈ x.Families, f.Ty < 256) →
      SecuredServicesDIB.Unpack x.Pack = .ok (x, 2 + 2 * x.Families.length)) ∧
    (∀ x : TunnellingInfoDIB, x.Ty < 256 → x.APDUSize < 65536 →
      x.Slots.length ≤ 62 →
      (∀ s ∈ x.Slots, s.Addr ≠ 0 ∧ s.Addr < 65536 ∧ s.Status < 65536) →
      TunnellingInfoDIB.Unpack x.Pack = .ok (x, 4 + 4 * x.Slots.length)) ∧
    (∀ x : ExtendedDeviceInfoDIB, x.Ty < 256 → x.APDUSize < 65536 →
      x.DeviceDescriptor < 65536 →
      ExtendedDeviceInfoDIB.Unpack x.Pack = .ok (x, 8)) ∧
    (∀ x : ManufacturerDataDIB, x.Ty < 256 → x.ID < 65536 → x.Data.length ≤ 251 →
      ManufacturerDataDIB.Unpack x.Pack = .ok (x, 4)) ∧
    (∀ x : RequestDIBs, x.Ty < 128 → (∀ b ∈ x.DescTypes, b < 256) →
      x.DescTypes.length % 2 = 0 → x.DescTypes.length ≤ 252 →
      RequestDIBs.Unpack x.Pack = .ok (x, x.DescTypes.length + 2)) ∧
    (∀ x : RequestDIBs, x.Ty < 128 → (∀ b ∈ x.DescTypes, b < 256) →
      x.DescTypes.length % 2 = 1 → x.DescTypes.length ≤ 251 →
      RequestDIBs.Unpack x.Pack =
        .ok (⟨x.Mandatory, x.Ty, x.DescTypes ++ [0]⟩, x.DescTypes.length + 3)) ∧
    (∀ x : SelectProgMode, SelectProgMode.Unpack x.Pack = .error .shortInput) ∧
    (∀ x : SelectMACAddr, SelectMACAddr.Unpack x.Pack = .error .shortInput) ∧
    (∀ x : SelectSrvSRP, SelectSrvSRP.Unpack x.Pack = .error .shortInput) := by
  refine ⟨fun x hty hmed hst hsrc hpid hnl hnz => ?_, fun x hty hlen hfty => ?_,
    fun x hty => ?_, fun x hty => ?_, fun x hty hlen ha => ?_, fun x hty hlen hfty => ?_,
    fun x hty hap hle hwf => ?_, fun x hty hap hdd => ?_, fun x hty hid hle => ?_,
    fun x hty hb hev hle => ?_, fun x hty hb hodd hle => ?_,
    fun x => ?_, fun x => ?_, fun x => ?_⟩
  · -- DeviceInformationBlock
    obtain ⟨ty, med, st, src, pid, ⟨s0, s1, s2, s3, s4, s5⟩, ⟨r0, r1, r2, r3⟩,
      ⟨h0, h1, h2, h3, h4, h5⟩, name⟩ := x
    simp only at hty hmed hst hsrc hpid hnl hnz ⊢
    have hplen : (padTo name 30).length = 30 := padTo_length name 30 hnl
    have htk : (padTo name 30).take 30 = padTo name 30 :=
      List.take_of_length_le (by omega)
    rw [DeviceInformationBlock.Pack]
    simp only [DeviceInformationBlock.Size]
    rw [DeviceInformationBlock.Unpack]
    simp only [List.length_cons, List.getD_cons_zero, List.getD_cons_succ,
      List.drop_succ_cons, List.drop_zero, hplen, htk]
    rw [if_neg (by omega), if_neg (by omega), if_neg (by omega)]
    rw [takeWhile_padTo name 30 hnl hnz]
    rw [Nat.mod_eq_of_lt hty, Nat.mod_eq_of_lt hmed, Nat.mod_eq_of_lt hst]
    have hs : src / 256 % 256 * 256 + src % 256 = src := by omega
    have hp : pid / 256 % 256 * 256 + pid % 256 = pid := by omega
    rw [hs, hp]
  · -- SupportedServicesDIB
    obtain ⟨ty, fams⟩ := x
    simp only at hty hlen hfty ⊢
    have hmod : (2 + 2 * fams.length) % 256 = 2 + 2 * fams.length :=
      Nat.mod_eq_of_lt (by omega)
    rw [SupportedServicesDIB.Pack]
    simp only [SupportedServicesDIB.Size, hmod]
    rw [SupportedServicesDIB.Unpack]
    simp only [List.length_cons, List.getD_cons_zero, List.getD_cons_succ,
      List.drop_succ_cons, List.drop_zero, famBytes_length]
    rw [if_neg (by omega)]
    rw [serviceFamiliesLoop_ok fams _ _ 2 [] (by simp [List.drop_succ_cons]) (by omega) hfty]
    simp only [List.nil_append]
    rw [if_neg (by omega)]
    rw [Nat.mod_eq_of_lt hty]
  · -- IPConfigDIB
    obtain ⟨ty, ⟨i0, i1, i2, i3⟩, ⟨m0, m1, m2, m3⟩, ⟨g0, g1, g2, g3⟩, caps, asg⟩ := x
    simp only at hty
    simp [IPConfigDIB.Pack, IPConfigDIB.Unpack, IPConfigDIB.Size, Nat.mod_eq_of_lt hty]
  · -- IPCurrentConfigDIB
    obtain ⟨ty, ⟨i0, i1, i2, i3⟩, ⟨m0, m1, m2, m3⟩, ⟨g0, g1, g2, g3⟩,
      ⟨d0, d1, d2, d3⟩, asg, res⟩ := x
    simp only at hty
    simp [IPCurrentConfigDIB.Pack, IPCurrentConfigDIB.Unpack, IPCurrentConfigDIB.Size,
      Nat.mod_eq_of_lt hty]
  · -- KNXAddrsDIB
    obtain ⟨ty, addrs⟩ := x
    simp only at hty hlen ha ⊢
    have hmod : (2 + 2 * addrs.length) % 256 = 2 + 2 * addrs.length :=
      Nat.mod_eq_of_lt (by omega)
    rw [KNXAddrsDIB.Pack]
    simp only [KNXAddrsDIB.Size, hmod]
    rw [KNXAddrsDIB.Unpack]
    simp only [List.length_cons, List.getD_cons_zero, List.getD_cons_succ,
      List.drop_succ_cons, List.drop_zero, addrBytes_length]
    rw [if_neg (by omega)]
    rw [knxAddrsLoop_ok addrs _ _ 2 [] (by simp [List.drop_succ_cons]) (by omega) ha]
    simp only [List.nil_append]
    rw [if_neg (by omega)]
    rw [Nat.mod_eq_of_lt hty]
  · -- SecuredServicesDIB
    obtain ⟨ty, fams⟩ := x
    simp only at hty hlen hfty ⊢
    have hmod : (2 + 2 * fams.length) % 256 = 2 + 2 * fams.length :=
      Nat.mod_eq_of_lt (by omega)
    rw [SecuredServicesDIB.Pack]
    simp only [SecuredServicesDIB.Size, hmod]
    rw [SecuredServicesDIB.Unpack]
    simp only [List.length_cons, List.getD_cons_zero, List.getD_cons_succ,
      List.drop_succ_cons, List.drop_zero, famBytes_length]
    rw [if_neg (by omega)]
    rw [serviceFamiliesLoop_ok fams _ _ 2 [] (by simp [List.drop_succ_cons]) (by omega) hfty]
    simp only [List.nil_append]
    rw [if_neg (by omega)]
    rw [Nat.mod_eq_of_lt hty]
  · -- TunnellingInfoDIB
    obtain ⟨ty, apdu, slots⟩ := x
    simp only at hty hap hle hwf ⊢
    rw [TunnellingInfoDIB.Pack]
    simp only [TunnellingInfoDIB.Size]
    rw [Nat.mod_eq_of_lt (by omega : 4 + 4 * slots.length < 256)]
    rw [TunnellingInfoDIB.Unpack]
    simp only [List.length_cons, List.getD_cons_zero, List.getD_cons_succ,
      List.drop_succ_cons, List.drop_zero, slotsBytes_length]
    rw [if_neg (by omega)]
    have h4 : 4 + 4 * slots.length - 4 = 4 * slots.length := by omega
    rw [h4, tunnellingLoop_ok slots hwf []]
    simp only [List.nil_append]
    rw [if_neg (by rw [Nat.mod_eq_of_lt (by omega : 4 + 4 * slots.length < 256)]; omega)]
    rw [Nat.mod_eq_of_lt (by omega : ty < 256)]
    have haddr : (apdu / 256) % 256 * 256 + apdu % 256 = apdu := by omega
    rw [haddr]
  · -- ExtendedDeviceInfoDIB
    obtain ⟨ty, ms, res, apdu, dd⟩ := x
    simp only at hty hap hdd ⊢
    have h1 : apdu / 256 % 256 * 256 + apdu % 256 = apdu := by omega
    have h2 : dd / 256 % 256 * 256 + dd % 256 = dd := by omega
    simp [ExtendedDeviceInfoDIB.Pack, ExtendedDeviceInfoDIB.Unpack,
      ExtendedDeviceInfoDIB.Size, Nat.mod_eq_of_lt hty, h1, h2]
  · -- ManufacturerDataDIB
    obtain ⟨ty, id, pd⟩ := x
    simp only at hty hid hle ⊢
    have hmod : (4 + pd.length) % 256 = 4 + pd.length := Nat.mod_eq_of_lt (by omega)
    have hidr : id / 256 % 256 * 256 + id % 256 = id := by omega
    rw [ManufacturerDataDIB.Pack]
    simp only [ManufacturerDataDIB.Size, hmod]
    rw [ManufacturerDataDIB.Unpack]
    simp only [List.length_cons, List.getD_cons_zero, List.getD_cons_succ,
      List.drop_succ_cons, List.drop_zero]
    rw [if_neg (by omega)]
    rw [if_neg (by simp [hmod])]
    rw [Nat.mod_eq_of_lt hty, hidr]
  · -- RequestDIBs, even count
    obtain ⟨m, t, dts⟩ := x
    simp only at hty hb hev hle ⊢
    have hmap : dts.map (· % 256) = dts := map_mod256_eq dts hb
    have ht256 : t % 256 = t := Nat.mod_eq_of_lt (by omega)
    have hpld := pld_facts t hty m
    have hpack : RequestDIBs.Pack ⟨m, t, dts⟩ =
        (2 + dts.length) :: ((if m then 128 else 0) ||| t) :: dts := by
      rw [RequestDIBs.Pack]
      simp only [hmap, ht256, List.length_map]
      rw [if_neg (by omega), Nat.mod_eq_of_lt (by omega)]
    rw [hpack, RequestDIBs.Unpack]
    simp only [List.length_cons, List.getD_cons_zero, List.getD_cons_succ]
    rw [if_neg (by omega), if_neg (by omega)]
    have htake : (((2 + dts.length) :: ((if m then 128 else 0) ||| t) :: dts).take
        (2 + dts.length)).drop 2 = dts := by
      have h2 : 2 + dts.length = dts.length + 1 + 1 := by omega
      rw [h2, List.take_succ_cons, List.take_succ_cons, List.take_length,
        List.drop_succ_cons, List.drop_succ_cons, List.drop_zero]
    rw [htake]
    simp only [RequestDIBs.Size]
    have hsz : (if dts.length % 2 ≠ 0 then 2 + (dts.length + 1) else 2 + dts.length) =
        2 + dts.length := if_neg (by omega)
    rw [hsz, Nat.mod_eq_of_lt (by omega : 2 + dts.length < 256)]
    rw [if_neg (by omega)]
    rw [hpld.1, hpld.2]
    have hcnt : 2 + dts.length = dts.length + 2 := by omega
    rw [hcnt]
  · -- RequestDIBs, odd count
    obtain ⟨m, t, dts⟩ := x
    simp only at hty hb hodd hle ⊢
    have hmap : dts.map (· % 256) = dts := map_mod256_eq dts hb
    have ht256 : t % 256 = t := Nat.mod_eq_of_lt (by omega)
    have hpld := pld_facts t hty m
    have hlap : (dts ++ [0]).length = dts.length + 1 := by simp
    have hpack : RequestDIBs.Pack ⟨m, t, dts⟩ =
        (2 + (dts.length + 1)) :: ((if m then 128 else 0) ||| t) :: (dts ++ [0]) := by
      rw [RequestDIBs.Pack]
      simp only [hmap, ht256, List.length_map]
      rw [if_pos (by omega)]
      simp only [hlap]
      rw [Nat.mod_eq_of_lt (by omega)]
    rw [hpack, RequestDIBs.Unpack]
    simp only [List.length_cons, List.getD_cons_zero, List.getD_cons_succ, List.length_append,
      List.length_singleton]
    rw [if_neg (by omega), if_neg (by omega)]
    have htake : (((2 + (dts.length + 1)) :: ((if m then 128 else 0) ||| t) :: (dts ++ [0])).take
        (2 + (dts.length + 1))).drop 2 = dts ++ [0] := by
      have h2 : 2 + (dts.length + 1) = (dts ++ [0]).length + 1 + 1 := by
        rw [hlap]
        omega
      rw [h2, List.take_succ_cons, List.take_succ_cons, List.take_length,
        List.drop_succ_cons, List.drop_succ_cons, List.drop_zero]
    rw [htake]
    simp only [RequestDIBs.Size, hlap]
    have hsz : (if (dts.length + 1) % 2 ≠ 0 then 2 + (dts.length + 1 + 1) else 2 + (dts.length + 1)) =
        2 + (dts.length + 1) := if_neg (by omega)
    rw [hsz, Nat.mod_eq_of_lt (by omega : 2 + (dts.length + 1) < 256)]
    rw [if_neg (by omega)]
    rw [hpld.1, hpld.2]
    have hcnt : 2 + (dts.length + 1) = dts.length + 3 := by omega
    rw [hcnt]
  · -- SelectProgMode
    obtain ⟨m, t⟩ := x
    simp [SelectProgMode.Pack, SelectProgMode.Unpack]
  · -- SelectMACAddr
    obtain ⟨m, t, ⟨a0, a1, a2, a3, a4, a5⟩⟩ := x
    simp [SelectMACAddr.Pack, SelectMACAddr.Unpack]
  · -- SelectSrvSRP
    obtain ⟨m, t, srv, v⟩ := x
    simp [SelectSrvSRP.Pack, SelectSrvSRP.Unpack]

/-- C4 counterexample: `SelectProgMode{mandatory=false, type=1}` packs
to the single byte `[01]` (no length byte), and unpacking those bytes
fails with short input instead of returning the value. -/
theorem srp_roundTrip_cex :
    SelectProgMode.Pack ⟨false, 1⟩ = [0x01] ∧
    SelectProgMode.Unpack (SelectProgMode.Pack ⟨false, 1⟩) = .error .shortInput := by decide

/-- C4 witness: the amended law applied to a concrete even-count
`RequestDIBs` and a concrete `IPConfigDIB`. -/
theorem srp_dib_roundTrip_witness :
    RequestDIBs.Unpack (RequestDIBs.Pack ⟨true, 4, [1, 2]⟩) = .ok (⟨true, 4, [1, 2]⟩, 4) ∧
    IPConfigDIB.Unpack (IPConfigDIB.Pack
        ⟨3, (192, 168, 1, 2), (255, 255, 255, 0), (192, 168, 1, 1), 5, 6⟩) =
      .ok (⟨3, (192, 168, 1, 2), (255, 255, 255, 0), (192, 168, 1, 1), 5, 6⟩, 16) ∧
    ManufacturerDataDIB.Unpack (ManufacturerDataDIB.Pack ⟨0xfe, 0x00C5, [9, 8, 7]⟩) =
      .ok (⟨0xfe, 0x00C5, [9, 8, 7]⟩, 4) := by
  obtain ⟨hdev, hsup, hipc, hipcc, hknx, hsec, htun, hedi, hman, hreqE, hreqO,
    hspm, hmac, hsrv⟩ := srp_dib_roundTrip
  refine ⟨?_, ?_, ?_⟩
  · have h := hreqE ⟨true, 4, [1, 2]⟩ (by decide) (by decide) (by decide) (by decide)
    simpa using h
  · exact hipc ⟨3, (192, 168, 1, 2), (255, 255, 255, 0), (192, 168, 1, 1), 5, 6⟩ (by decide)
  · exact hman ⟨0xfe, 0x00C5, [9, 8, 7]⟩ (by decide) (by decide) (by decide)

/-! ## Claim C10 — `TunnellingInfoDIB` unpack -/

/-- C10: unpacking a tunnelling-info DIB fails with the invalid-slot
error for every input containing a slot whose address field is zero,
and succeeds — returning exactly the encoded type, APDU size and slots —
for every well-formed input whose declared length matches the recomputed
size and whose slots all have non-zero addresses. -/
theorem tunnellingInfo_unpack_spec :
    (∀ tdib : TunnellingInfoDIB, tdib.Slots.length ≤ 62 →
      (∃ s ∈ tdib.Slots, s.Addr = 0) →
      TunnellingInfoDIB.Unpack tdib.Pack = .error .invalidSlot) ∧
    (∀ tdib : TunnellingInfoDIB, tdib.Ty < 256 → tdib.APDUSize < 65536 →
      tdib.Slots.length ≤ 62 →
      (∀ s ∈ tdib.Slots, s.Addr ≠ 0 ∧ s.Addr < 65536 ∧ s.Status < 65536) →
      TunnellingInfoDIB.Unpack tdib.Pack = .ok (tdib, 4 + 4 * tdib.Slots.length)) := by
  constructor
  · rintro ⟨ty, apdu, slots⟩ hle hex
    simp only at hle hex ⊢
    rw [TunnellingInfoDIB.Pack]
    simp only [TunnellingInfoDIB.Size]
    rw [Nat.mod_eq_of_lt (by omega : 4 + 4 * slots.length < 256)]
    rw [TunnellingInfoDIB.Unpack]
    simp only [List.length_cons, List.getD_cons_zero, List.getD_cons_succ,
      List.drop_succ_cons, List.drop_zero, slotsBytes_length]
    rw [if_neg (by omega)]
    have h4 : 4 + 4 * slots.length - 4 = 4 * slots.length := by omega
    rw [h4, tunnellingLoop_zero slots hex []]
  · rintro ⟨ty, apdu, slots⟩ hty hap hle hwf
    simp only at hty hap hle hwf ⊢
    rw [TunnellingInfoDIB.Pack]
    simp only [TunnellingInfoDIB.Size]
    rw [Nat.mod_eq_of_lt (by omega : 4 + 4 * slots.length < 256)]
    rw [TunnellingInfoDIB.Unpack]
    simp only [List.length_cons, List.getD_cons_zero, List.getD_cons_succ,
      List.drop_succ_cons, List.drop_zero, slotsBytes_length]
    rw [if_neg (by omega)]
    have h4 : 4 + 4 * slots.length - 4 = 4 * slots.length := by omega
    rw [h4, tunnellingLoop_ok slots hwf []]
    simp only [List.nil_append]
    rw [if_neg (by rw [Nat.mod_eq_of_lt (by omega : 4 + 4 * slots.length < 256)]; omega)]
    rw [Nat.mod_eq_of_lt (by omega : ty < 256)]
    have haddr : (apdu / 256) % 256 * 256 + apdu % 256 = apdu := by omega
    rw [haddr]

/-- C10 witness: the specification applied to a one-slot DIB with a
zero address (error) and to a one-slot DIB with address 0x1102
(success). -/
theorem tunnellingInfo_unpack_spec_witness :
    TunnellingInfoDIB.Unpack (TunnellingInfoDIB.Pack ⟨7, 256, [⟨0, 5⟩]⟩) =
      .error .invalidSlot ∧
    TunnellingInfoDIB.Unpack (TunnellingInfoDIB.Pack ⟨7, 256, [⟨0x1102, 0⟩]⟩) =
      .ok (⟨7, 256, [⟨0x1102, 0⟩]⟩, 8) := by
  constructor
  · exact tunnellingInfo_unpack_spec.1 ⟨7, 256, [⟨0, 5⟩]⟩ (by decide)
      ⟨⟨0, 5⟩, by simp, rfl⟩
  · have h := tunnellingInfo_unpack_spec.2 ⟨7, 256, [⟨0x1102, 0⟩]⟩ (by decide) (by decide)
      (by decide) (by decide)
    simpa using h
